import Mathlib

/-!
Verification of the DermaLume analysis-submission flow
(`src/static/js/script.js`, the `analysisForm` submit handler).

The handler is modelled as a pure function from the form inputs, the
initial DOM state, the server behavior of the single `fetch` call, and a
JSON-parse oracle (standing for `JSON.parse`) to the final DOM state
together with an ordered trace of observable events (alerts, button
mutations, the network request, the body read, the parse attempt, the
scroll). JavaScript string falsiness, `||` defaulting, `String.includes`,
template-literal rendering of `undefined`, and `Math.round` are embedded
explicitly; numbers are modelled as rationals.

Two failure paths of the real language are part of the model. First, the
line-110 bracket lookup `riskMapping[result.prediction]` searches the
prototype chain: for a key inherited from `Object.prototype` (such as
"toString") it returns a truthy non-string value, the `||` default never
fires, line 112 writes that value's string coercion into the pill, and
line 115 throws calling `includes` on it, so the class, heading and
scroll never run and the outer catch alerts a connection error. Second,
`JSON.parse` can succeed with the value `null` (body "null"), and the
subsequent property read (`result.confidence` on line 96 for an ok
status, `result.error` on line 123 otherwise) throws, again landing in
the catch. The parse oracle therefore yields `Option ParsedJson`, where a
parse success is `null` or an object; non-null scalar and array results
are represented as an object with all four read fields absent, which is
observationally identical for the four property reads the handler
performs.
-/

/-- JavaScript truthiness of an optional string value: `undefined` and the
empty string are falsy. -/
def optTruthy : Option String → Bool
  | none => false
  | some s => s != ""

/-- Rendering of a possibly-`undefined` string inside a template literal,
and equally the string coercion of a possibly-`undefined` property key:
`undefined` renders as the text "undefined". -/
def jsToStr : Option String → String
  | none => "undefined"
  | some s => s

/-- The JavaScript `a || b` on two possibly-`undefined` string values. -/
def jsOr (a b : Option String) : Option String :=
  if optTruthy a then a else b

/-- The JavaScript `a || d` where `d` is a (truthy) string literal. -/
def jsOrElse (a : Option String) (d : String) : String :=
  match a with
  | some s => if s != "" then s else d
  | none => d

/-- Whether the character list `sub` is an initial segment of `l`. -/
def leadsWith : List Char → List Char → Bool
  | [], _ => true
  | _ :: _, [] => false
  | a :: as, b :: bs => a == b && leadsWith as bs

/-- Whether the character list `sub` occurs contiguously inside the second list. -/
def containsSeg (sub : List Char) : List Char → Bool
  | [] => sub.isEmpty
  | c :: rest => leadsWith sub (c :: rest) || containsSeg sub rest

/-- The JavaScript `s.includes(sub)`. -/
def jsIncludes (s sub : String) : Bool :=
  containsSeg sub.toList s.toList

/-- The JavaScript `Math.round`: round half toward positive infinity. -/
def jsRound (q : ℚ) : ℤ := ⌊q + 1/2⌋

/-- The parsed JSON response body as the handler reads it when it is an
object: fields `prediction`, `confidence`, `dx_full`, `error`, each
possibly absent (`undefined`). -/
structure JsonResult where
  prediction : Option String
  confidence : Option ℚ
  dx_full : Option String
  error : Option String
deriving DecidableEq

/-- A successful `JSON.parse` result: the JSON value `null`, or anything
else, read through the four fields the handler accesses (a non-null
scalar or array behaves as an object with all four fields absent). -/
inductive ParsedJson where
  | null
  | obj (r : JsonResult)
deriving DecidableEq

/-- The own keys of the `riskMapping` object literal
(script.js lines 100-108): the fixed 7-entry table from category code to
risk label. -/
def riskMapping (code : String) : Option String :=
  if code = "mel" then some "High Risk - Cancerous"
  else if code = "bcc" then some "High Risk - Cancerous"
  else if code = "akiec" then some "Medium Risk - Pre-cancerous"
  else if code = "bkl" then some "Low Risk - Benign"
  else if code = "nv" then some "Low Risk - Benign"
  else if code = "df" then some "Low Risk - Benign"
  else if code = "vasc" then some "Low Risk - Benign"
  else none

/-- The property names an object literal inherits from
`Object.prototype` (ECMAScript): for these keys the bracket lookup on
`riskMapping` returns a truthy non-string value (a built-in function, or
the prototype object itself for the `__proto__` accessor) instead of
`undefined`. -/
def protoProps : List String :=
  ["constructor", "hasOwnProperty", "isPrototypeOf", "propertyIsEnumerable",
   "toLocaleString", "toString", "valueOf",
   "__defineGetter__", "__defineSetter__", "__lookupGetter__", "__lookupSetter__",
   "__proto__"]

/-- A JavaScript property-lookup result on the `riskMapping` literal:
`undefined`, an own-key string value, or a truthy value inherited from
`Object.prototype`. -/
inductive JsProp where
  | absent
  | str (s : String)
  | inheritedVal (name : String)
deriving DecidableEq

/-- The bracket lookup `riskMapping[key]`: own keys first, then the
prototype chain, then `undefined`. -/
def riskMappingGet (code : String) : JsProp :=
  match riskMapping code with
  | some label => .str label
  | none => if code ∈ protoProps then .inheritedVal code else .absent

/-- The value of the line-110 expression
`riskMapping[result.prediction] || 'Unknown Risk'`: an absent prediction
coerces to the key "undefined"; the `||` default fires only when the
lookup is falsy (`undefined` or an empty string), so an inherited
prototype member — being truthy — passes through. -/
inductive RiskLevel where
  | str (s : String)
  | inheritedVal (name : String)
deriving DecidableEq

def riskLevelVal (pred : Option String) : RiskLevel :=
  match riskMappingGet (jsToStr pred) with
  | .absent => .str "Unknown Risk"
  | .str s => if s != "" then .str s else .str "Unknown Risk"
  | .inheritedVal n => .inheritedVal n

/-- The own-key lookup with the "Unknown Risk" default: the string the
line-110 expression evaluates to whenever the prediction is not a
prototype-inherited name (lemma `riskLevelVal_str`). -/
def riskLevelOf (pred : Option String) : String :=
  match pred with
  | some p => (riskMapping p).getD "Unknown Risk"
  | none => "Unknown Risk"

/-- The risk pill class update (script.js line 115):
`'pill ' + (riskLevel.includes('High') ? 'high' : riskLevel.includes('Medium') ? 'medium' : '')`,
reached only when the risk level is a string. -/
def pillClassOf (riskLevel : String) : String :=
  "pill " ++
    (if jsIncludes riskLevel "High" then "high"
     else if jsIncludes riskLevel "Medium" then "medium"
     else "")

/-- `Math.round(result.confidence * 100) + '%'` (script.js line 96); an
absent confidence is `undefined`, and `Math.round(undefined * 100)` is
`NaN`, rendered "NaN". -/
def displayedConfidence (c : Option ℚ) : String :=
  match c with
  | some q => toString (jsRound (q * 100)) ++ "%"
  | none => "NaN%"

/-- The host string coercion of an inherited `Object.prototype` member
when line 112 assigns it to `textContent`: the native functions render in
the NativeFunction source form, the value of the `__proto__` accessor as
"[object Object]", and `constructor` as the `Object` function. The exact
text is engine-defined (V8 wording modelled); no theorem depends on it
beyond its being distinct from the risk labels. -/
def protoPropText (name : String) : String :=
  if name = "__proto__" then "[object Object]"
  else if name = "constructor" then "function Object() \u007B [native code] \u007D"
  else "function " ++ name ++ "() \u007B [native code] \u007D"

/-- The host message of the error thrown by reading a property of the
JSON value `null` (script.js line 96 or 123); engine-defined, V8 wording
modelled. No theorem depends on the exact text, only on the
"Error connecting to server: " framing the catch adds. -/
def nullReadMsg (propName : String) : String :=
  "Cannot read properties of null (reading \u0027" ++ propName ++ "\u0027)"

/-- The host message of the error thrown by line 115 calling `includes`
on an inherited non-string risk level; engine-defined, V8 wording
modelled. -/
def includesNotFnMsg : String := "riskLevel.includes is not a function"

/-- The four form inputs the handler reads: the selected image file (by
name; absent when no file is chosen), the age text, the checked gender
radio value (absent when none is checked), and the location text. -/
structure FormInputs where
  imageFile : Option String
  age : String
  gender : Option String
  location : String
deriving DecidableEq

/-- The validation test (script.js line 52):
`!imageFile || !age || !gender || !location`. A `File` object is truthy
whenever present; the text values are falsy exactly when empty. -/
def missingField (i : FormInputs) : Bool :=
  i.imageFile.isNone || i.age == "" || !(optTruthy i.gender) || i.location == ""

/-- The DOM nodes the handler writes: the confidence text, the risk pill
text and class, the result heading, and the submit button state. -/
structure Dom where
  confidenceText : String
  riskPillText : String
  riskPillClass : String
  resultHeading : String
  submitDisabled : Bool
  submitLabel : String
deriving DecidableEq

/-- The behavior of the single `fetch` call: either a transport failure
(the returned promise rejects with an error message) or an HTTP response
with a status and a body text. -/
inductive ServerBehavior where
  | failure (msg : String)
  | response (status : Nat) (body : String)
deriving DecidableEq

/-- Observable events of one handler run, in order. -/
inductive Event where
  | alerted (msg : String)
  | btnSet (disabled : Bool) (label : String)
  | fetchSent (url : String) (fields : List (String × String))
  | bodyRead (text : String)
  | parsed (ok : Bool)
  | scrolled (target : String)
deriving DecidableEq

/-- The fixed endpoint (script.js line 76). -/
def predictUrl : String := "http://127.0.0.1:5000/predict"

/-- The multipart fields appended to the `FormData` (script.js lines 58-62). -/
def formFields (i : FormInputs) : List (String × String) :=
  [("image", jsToStr i.imageFile), ("age", i.age),
   ("gender", jsToStr i.gender), ("location", i.location)]

/-- `response.ok`: status in the inclusive range 200-299. -/
def respOk (status : Nat) : Bool := 200 ≤ status && status ≤ 299

/-- The validation alert text (script.js line 53). -/
def validationMsg : String := "Please fill all fields and upload an image"

/-- The in-flight button label (script.js line 72). -/
def busyLabel : String := "Analyzing…"

/-- Modelled from the spec: the submit control's label before a submission
begins. The page markup that sets it is not under src/; the spec calls the
restored state the "enabled, default-label state", and the cleanup step
(script.js line 129) writes the literal "Submit Analysis". -/
def defaultSubmitLabel : String := "Submit Analysis"

/-- The ok-status branch (script.js lines 94-121). Line 96 reads
`result.confidence`: a null parse result throws there, before any DOM
write. Otherwise the confidence text is written, then line 112 writes the
(string-coerced) risk level into the pill; only a string-valued risk
level survives line 115, where an inherited prototype member makes
`includes` throw — after the pill-text write and before the class,
heading and scroll. Thrown errors land in the same catch as transport
failures, alerting "Error connecting to server: " plus the message. -/
def okBranch (dom : Dom) (body : String) (pj : ParsedJson) : Dom × List Event :=
  match pj with
  | .null =>
      (dom, [.bodyRead body, .parsed true,
             .alerted ("Error connecting to server: " ++ nullReadMsg "confidence")])
  | .obj r =>
      let dom1 := { dom with confidenceText := displayedConfidence r.confidence }
      match riskLevelVal r.prediction with
      | .str riskLevel =>
          ({ dom1 with
              riskPillText := riskLevel
              riskPillClass := pillClassOf riskLevel
              resultHeading := riskLevel ++ ": " ++ jsToStr (jsOr r.dx_full r.prediction) },
           [.bodyRead body, .parsed true, .scrolled "results"])
      | .inheritedVal name =>
          ({ dom1 with riskPillText := protoPropText name },
           [.bodyRead body, .parsed true,
            .alerted ("Error connecting to server: " ++ includesNotFnMsg)])

/-- The body of the `try` block (script.js lines 74-126), `catch`
included: the fetch either rejects (caught, alerting the connection
error) or yields a response whose body is read as text and then parsed; a
parse failure throws "Server returned invalid response", caught by the
same `catch`. On an ok status the parsed value is rendered (`okBranch`);
otherwise line 123 reads `result.error` — throwing for a null parse
result — and alerts the server error or the generic fallback. Returns the
updated DOM and the events after the fetch. -/
def tryBlock (dom : Dom) (server : ServerBehavior)
    (parse : String → Option ParsedJson) : Dom × List Event :=
  match server with
  | .failure m =>
      (dom, [.alerted ("Error connecting to server: " ++ m)])
  | .response status body =>
      match parse body with
      | none =>
          (dom, [.bodyRead body, .parsed false,
                 .alerted "Error connecting to server: Server returned invalid response"])
      | some pj =>
          if respOk status then
            okBranch dom body pj
          else
            match pj with
            | .null =>
                (dom, [.bodyRead body, .parsed true,
                       .alerted ("Error connecting to server: " ++ nullReadMsg "error")])
            | .obj r =>
                (dom, [.bodyRead body, .parsed true,
                       .alerted ("Error: " ++ jsOrElse r.error "Unknown error occurred")])

/-- The whole submit handler (script.js lines 43-131): validate, and on
success disable the button, show the busy label, send the request, run
the try/catch, and in `finally` re-enable the button with the label
"Submit Analysis". -/
def submitHandler (i : FormInputs) (dom : Dom) (server : ServerBehavior)
    (parse : String → Option ParsedJson) : Dom × List Event :=
  if missingField i then
    (dom, [.alerted validationMsg])
  else
    let res := tryBlock { dom with submitDisabled := true, submitLabel := busyLabel } server parse
    ({ res.1 with submitDisabled := false, submitLabel := defaultSubmitLabel },
     [Event.btnSet true busyLabel, Event.fetchSent predictUrl (formFields i)]
       ++ res.2 ++ [Event.btnSet false defaultSubmitLabel])

/-- The alert messages of a trace, in order. -/
def alertsOf (evs : List Event) : List String :=
  evs.filterMap fun e =>
    match e with
    | .alerted m => some m
    | _ => none

/-- The category-to-risk table exactly as the specification states it. -/
def riskLabelClaim (code : String) : String :=
  if code = "mel" ∨ code = "bcc" then "High Risk - Cancerous"
  else if code = "akiec" then "Medium Risk - Pre-cancerous"
  else if code = "bkl" ∨ code = "nv" ∨ code = "df" ∨ code = "vasc" then "Low Risk - Benign"
  else "Unknown Risk"

lemma riskLevelOf_eq_claim (p : String) :
    riskLevelOf (some p) = riskLabelClaim p := by
  by_cases h1 : p = "mel" <;> by_cases h2 : p = "bcc" <;>
    by_cases h3 : p = "akiec" <;> by_cases h4 : p = "bkl" <;>
    by_cases h5 : p = "nv" <;> by_cases h6 : p = "df" <;>
    by_cases h7 : p = "vasc" <;>
    simp [riskLevelOf, riskMapping, riskLabelClaim, h1, h2, h3, h4, h5, h6, h7]

lemma riskLevelOf_cases (pred : Option String) :
    riskLevelOf pred = "High Risk - Cancerous" ∨
    riskLevelOf pred = "Medium Risk - Pre-cancerous" ∨
    riskLevelOf pred = "Low Risk - Benign" ∨
    riskLevelOf pred = "Unknown Risk" := by
  cases pred with
  | none => simp [riskLevelOf]
  | some p =>
      simp only [riskLevelOf]
      unfold riskMapping
      split_ifs <;> simp

lemma riskMapping_label_ne_empty {p label : String}
    (h : riskMapping p = some label) : label ≠ "" := by
  unfold riskMapping at h
  split_ifs at h
  all_goals first
    | exact Option.noConfusion h
    | (injection h with h; subst h; decide)

lemma riskMapping_proto_none (p : String) (h : p ∈ protoProps) :
    riskMapping p = none := by
  simp only [protoProps] at h
  fin_cases h <;> decide

lemma riskLevelVal_eq_str (p : String) (hnp : p ∉ protoProps) :
    riskLevelVal (some p) = .str (riskLevelOf (some p)) := by
  cases hrm : riskMapping p with
  | some label =>
      have hne := riskMapping_label_ne_empty hrm
      simp [riskLevelVal, riskMappingGet, jsToStr, hrm, riskLevelOf, bne_iff_ne, hne]
  | none =>
      simp [riskLevelVal, riskMappingGet, jsToStr, hrm, riskLevelOf, hnp]

lemma riskLevelVal_str (pred : Option String)
    (h : ∀ q, pred = some q → q ∉ protoProps) :
    riskLevelVal pred = .str (riskLevelOf pred) := by
  cases pred with
  | none => decide
  | some p => exact riskLevelVal_eq_str p (h p rfl)

lemma riskLevelVal_proto (p : String) (h : p ∈ protoProps) :
    riskLevelVal (some p) = .inheritedVal p := by
  simp [riskLevelVal, riskMappingGet, jsToStr, riskMapping_proto_none p h, h]

lemma getLast?_snoc (l : List Event) (a : Event) : (l ++ [a]).getLast? = some a := by
  rw [List.getLast?_append_of_ne_nil _ (by simp)]
  rfl

lemma pillClass_high : pillClassOf "High Risk - Cancerous" = "pill high" := by decide

lemma pillClass_medium : pillClassOf "Medium Risk - Pre-cancerous" = "pill medium" := by decide

lemma pillClass_low : pillClassOf "Low Risk - Benign" = "pill " := by decide

lemma pillClass_unknown : pillClassOf "Unknown Risk" = "pill " := by decide

/-- Concrete valid inputs used by witnesses. -/
def wInputs : FormInputs :=
  { imageFile := some "spot.png", age := "42", gender := some "female", location := "arm" }

/-- Concrete invalid inputs (empty age) used by witnesses. -/
def wBadInputs : FormInputs :=
  { imageFile := some "spot.png", age := "", gender := some "female", location := "arm" }

/-- Concrete initial DOM used by witnesses. -/
def wDom : Dom :=
  { confidenceText := "", riskPillText := "", riskPillClass := "pill",
    resultHeading := "Awaiting analysis", submitDisabled := false,
    submitLabel := "Submit Analysis" }

/-- Concrete success body used by witnesses. -/
def wResult : JsonResult :=
  { prediction := some "nv", confidence := some (93/100), dx_full := none, error := none }

/-- Parse oracle returning `wResult` for every body. -/
def wParse : String → Option ParsedJson := fun _ => some (.obj wResult)

/-- Parse oracle that fails on every body, used by witnesses. -/
def wNoParse : String → Option ParsedJson := fun _ => none

/-- Parse oracle returning the JSON value null for every body. -/
def wNullParse : String → Option ParsedJson := fun _ => some .null

/-- Concrete error body used by witnesses: only an `error` field. -/
def wErrResult : JsonResult :=
  { prediction := none, confidence := none, dx_full := none, error := some "bad image" }

/-- Parse oracle returning `wErrResult` for every body. -/
def wErrParse : String → Option ParsedJson := fun _ => some (.obj wErrResult)

/-- Concrete melanoma body used by witnesses. -/
def wMelResult : JsonResult :=
  { prediction := some "mel", confidence := some (99/100),
    dx_full := some "Melanoma", error := none }

/-- Parse oracle returning `wMelResult` for every body. -/
def wMelParse : String → Option ParsedJson := fun _ => some (.obj wMelResult)

/-- Concrete unrecognized-prediction body used by witnesses. -/
def wUnkResult : JsonResult :=
  { prediction := some "xyz", confidence := none, dx_full := none, error := none }

/-- Parse oracle returning `wUnkResult` for every body. -/
def wUnkParse : String → Option ParsedJson := fun _ => some (.obj wUnkResult)

/-- Concrete prototype-key body used by counterexamples: the prediction
"toString" is inherited from `Object.prototype`. -/
def wProtoResult : JsonResult :=
  { prediction := some "toString", confidence := none, dx_full := none, error := none }

/-- Parse oracle returning `wProtoResult` for every body. -/
def wProtoParse : String → Option ParsedJson := fun _ => some (.obj wProtoResult)

/-- C1 (amended): for every success (2xx) response whose prediction code
is not a property name inherited from `Object.prototype`, the code is
mapped to the risk label exactly per the fixed 7-entry table, every other
such code mapping to exactly "Unknown Risk"; a prototype-inherited name
instead passes the truthy inherited value through the `||` default, so
the pill text receives its string coercion and the run ends alerting a
connection error before the render completes. -/
theorem claim_C1 (i : FormInputs) (dom : Dom) (status : Nat) (body : String)
    (parse : String → Option ParsedJson) (r : JsonResult) (p : String)
    (hmiss : missingField i = false) (hp : parse body = some (.obj r))
    (hok : respOk status = true) (hpred : r.prediction = some p) :
    (p ∉ protoProps →
      (submitHandler i dom (.response status body) parse).1.riskPillText =
        riskLabelClaim p) ∧
    (p ∈ protoProps →
      (submitHandler i dom (.response status body) parse).1.riskPillText =
        protoPropText p ∧
      alertsOf (submitHandler i dom (.response status body) parse).2 =
        ["Error connecting to server: " ++ includesNotFnMsg]) := by
  constructor
  · intro hnp
    simp [submitHandler, hmiss, tryBlock, hp, hok, okBranch, hpred,
      riskLevelVal_eq_str p hnp, riskLevelOf_eq_claim]
  · intro hpp
    constructor
    · simp [submitHandler, hmiss, tryBlock, hp, hok, okBranch, hpred,
        riskLevelVal_proto p hpp]
    · simp [submitHandler, hmiss, tryBlock, hp, hok, okBranch, hpred,
        riskLevelVal_proto p hpp, alertsOf]

/-- Counterexample to C1 as frozen: at the unmapped code "toString" (a
200 response), the pill text is not "Unknown Risk" — the inherited
`Object.prototype.toString` is truthy, its coercion is written, and the
run alerts a connection error from the line-115 throw. -/
theorem claim_C1_counterexample :
    (submitHandler wInputs wDom (.response 200 "resp") wProtoParse).1.riskPillText ≠
      riskLabelClaim "toString" ∧
    alertsOf (submitHandler wInputs wDom (.response 200 "resp") wProtoParse).2 =
      ["Error connecting to server: " ++ includesNotFnMsg] :=
  ⟨by decide, by decide⟩

/-- Witness for C1 at concrete inputs: a 200 response with the
unrecognized, non-prototype code "xyz" maps to "Unknown Risk". -/
theorem claim_C1_witness :
    missingField wInputs = false ∧ wUnkParse "resp" = some (.obj wUnkResult) ∧
    respOk 200 = true ∧ wUnkResult.prediction = some "xyz" ∧
    "xyz" ∉ protoProps ∧
    (submitHandler wInputs wDom (.response 200 "resp") wUnkParse).1.riskPillText =
      riskLabelClaim "xyz" :=
  ⟨by decide, rfl, by decide, rfl, by decide,
   (claim_C1 wInputs wDom 200 "resp" wUnkParse wUnkResult "xyz"
      (by decide) rfl (by decide) rfl).1 (by decide)⟩

/-- C2: after every submission outcome (success, server error, or
transport error), the submit control ends re-enabled with its original
(default) label restored, and the cleanup button write is the last event
of the trace regardless of which path was taken. -/
theorem claim_C2 (i : FormInputs) (dom : Dom) (server : ServerBehavior)
    (parse : String → Option ParsedJson)
    (hmiss : missingField i = false) (hinit : dom.submitLabel = defaultSubmitLabel) :
    (submitHandler i dom server parse).1.submitDisabled = false ∧
    (submitHandler i dom server parse).1.submitLabel = dom.submitLabel ∧
    (submitHandler i dom server parse).2.getLast? =
      some (.btnSet false defaultSubmitLabel) := by
  refine ⟨?_, ?_, ?_⟩
  · simp [submitHandler, hmiss]
  · simp [submitHandler, hmiss, hinit]
  · have h : (submitHandler i dom server parse).2 =
        (Event.btnSet true busyLabel :: Event.fetchSent predictUrl (formFields i) ::
          (tryBlock { dom with submitDisabled := true, submitLabel := busyLabel }
            server parse).2) ++ [Event.btnSet false defaultSubmitLabel] := by
      simp [submitHandler, hmiss]
    rw [h, getLast?_snoc]

/-- Witness for C2 at concrete inputs: a transport failure run. -/
theorem claim_C2_witness :
    missingField wInputs = false ∧ wDom.submitLabel = defaultSubmitLabel ∧
    ((submitHandler wInputs wDom (.failure "timeout") wParse).1.submitDisabled = false ∧
     (submitHandler wInputs wDom (.failure "timeout") wParse).1.submitLabel = wDom.submitLabel ∧
     (submitHandler wInputs wDom (.failure "timeout") wParse).2.getLast? =
       some (.btnSet false defaultSubmitLabel)) :=
  ⟨by decide, rfl, claim_C2 wInputs wDom (.failure "timeout") wParse (by decide) rfl⟩

/-- C3: whenever any of the four required fields is absent or empty, the
handler returns with only the validation alert: the DOM is untouched and
no network request is issued. -/
theorem claim_C3 (i : FormInputs) (dom : Dom) (server : ServerBehavior)
    (parse : String → Option ParsedJson) (hmiss : missingField i = true) :
    submitHandler i dom server parse = (dom, [.alerted validationMsg]) ∧
    ∀ u f, Event.fetchSent u f ∉ (submitHandler i dom server parse).2 := by
  constructor
  · simp [submitHandler, hmiss]
  · intro u f
    simp [submitHandler, hmiss]

/-- Witness for C3 at concrete inputs: empty age field. -/
theorem claim_C3_witness :
    missingField wBadInputs = true ∧
    (submitHandler wBadInputs wDom (.response 200 "resp") wParse =
      (wDom, [.alerted validationMsg]) ∧
     ∀ u f, Event.fetchSent u f ∉
       (submitHandler wBadInputs wDom (.response 200 "resp") wParse).2) :=
  ⟨by decide, claim_C3 wBadInputs wDom (.response 200 "resp") wParse (by decide)⟩

/-- C4: for every response whose body does not parse, the run completes
with exactly the trace that reads the body as text, then fails the parse,
then alerts the fixed server-format message
"Error connecting to server: Server returned invalid response" (no
uncaught exception), leaving the DOM untouched except for the restored
submit control; a transport failure instead produces a trace with no body
read and no parse attempt, alerting the transport message — the two error
kinds are distinct. -/
theorem claim_C4 (i : FormInputs) (dom : Dom) (status : Nat) (body : String)
    (parse : String → Option ParsedJson)
    (hmiss : missingField i = false) (hp : parse body = none) :
    (submitHandler i dom (.response status body) parse).2 =
      [.btnSet true busyLabel, .fetchSent predictUrl (formFields i),
       .bodyRead body, .parsed false,
       .alerted "Error connecting to server: Server returned invalid response",
       .btnSet false defaultSubmitLabel] ∧
    (submitHandler i dom (.response status body) parse).1 =
      { dom with submitDisabled := false, submitLabel := defaultSubmitLabel } ∧
    ∀ m, (submitHandler i dom (.failure m) parse).2 =
      [.btnSet true busyLabel, .fetchSent predictUrl (formFields i),
       .alerted ("Error connecting to server: " ++ m),
       .btnSet false defaultSubmitLabel] := by
  refine ⟨?_, ?_, ?_⟩
  · simp [submitHandler, hmiss, tryBlock, hp]
  · simp [submitHandler, hmiss, tryBlock, hp]
  · intro m
    simp [submitHandler, hmiss, tryBlock]

/-- Witness for C4 at concrete inputs: a 200 response with an unparseable
body. -/
theorem claim_C4_witness :
    missingField wInputs = false ∧ wNoParse "garbage" = none ∧
    ((submitHandler wInputs wDom (.response 200 "garbage") wNoParse).2 =
      [.btnSet true busyLabel, .fetchSent predictUrl (formFields wInputs),
       .bodyRead "garbage", .parsed false,
       .alerted "Error connecting to server: Server returned invalid response",
       .btnSet false defaultSubmitLabel] ∧
     (submitHandler wInputs wDom (.response 200 "garbage") wNoParse).1 =
      { wDom with submitDisabled := false, submitLabel := defaultSubmitLabel } ∧
     ∀ m, (submitHandler wInputs wDom (.failure m) wNoParse).2 =
      [.btnSet true busyLabel, .fetchSent predictUrl (formFields wInputs),
       .alerted ("Error connecting to server: " ++ m),
       .btnSet false defaultSubmitLabel]) :=
  ⟨by decide, rfl, claim_C4 wInputs wDom 200 "garbage" wNoParse (by decide) rfl⟩

/-- C5 (amended): for every non-2xx response whose body parses to a JSON
object, the surfaced message is "Error: " followed by the server-supplied
error string when a truthy one is present (so the error "bad image"
yields exactly "Error: bad image"), and the generic fallback
"Error: Unknown error occurred" when none is present; a body parsing to
JSON null instead throws reading the error field and surfaces a
connection error, and an unparseable body surfaces the fixed
server-format connection error. -/
theorem claim_C5 (i : FormInputs) (dom : Dom) (status : Nat) (body : String)
    (parse : String → Option ParsedJson)
    (hmiss : missingField i = false) (hnok : respOk status = false) :
    (∀ r, parse body = some (.obj r) →
      alertsOf (submitHandler i dom (.response status body) parse).2 =
        ["Error: " ++ jsOrElse r.error "Unknown error occurred"]) ∧
    (parse body = some .null →
      alertsOf (submitHandler i dom (.response status body) parse).2 =
        ["Error connecting to server: " ++ nullReadMsg "error"]) ∧
    (parse body = none →
      alertsOf (submitHandler i dom (.response status body) parse).2 =
        ["Error connecting to server: Server returned invalid response"]) := by
  refine ⟨?_, ?_, ?_⟩
  · intro r hr
    simp [submitHandler, hmiss, tryBlock, hr, hnok, alertsOf]
  · intro hn
    simp [submitHandler, hmiss, tryBlock, hn, hnok, alertsOf]
  · intro hn
    simp [submitHandler, hmiss, tryBlock, hn, alertsOf]

/-- Counterexample to C5 as frozen: a 500 response whose body parses to
JSON null surfaces the connection-framed null-read message — neither
"Error: " followed by a server string nor the generic fallback
"Error: Unknown error occurred". -/
theorem claim_C5_counterexample :
    alertsOf (submitHandler wInputs wDom (.response 500 "null") wNullParse).2 =
      ["Error connecting to server: " ++ nullReadMsg "error"] ∧
    ("Error connecting to server: " ++ nullReadMsg "error").take 7 ≠ "Error: " ∧
    "Error connecting to server: " ++ nullReadMsg "error" ≠
      "Error: Unknown error occurred" :=
  ⟨by decide, by decide, by decide⟩

/-- Witness for C5 at concrete inputs: a 500 response with body error
"bad image" surfaces exactly "Error: bad image". -/
theorem claim_C5_witness :
    missingField wInputs = false ∧ respOk 500 = false ∧
    wErrParse "resp" = some (.obj wErrResult) ∧
    alertsOf (submitHandler wInputs wDom (.response 500 "resp") wErrParse).2 =
      ["Error: bad image"] :=
  ⟨by decide, by decide, rfl, by
    have h := (claim_C5 wInputs wDom 500 "resp" wErrParse (by decide) (by decide)).1
      wErrResult rfl
    rw [h]
    decide⟩

/-- C6: for every success response whose body parses to an object
carrying a confidence value, the displayed confidence string is the value
times 100, rounded half-up to an integer, with a "%" suffix (the
confidence write on line 96 precedes every later throw). -/
theorem claim_C6 (i : FormInputs) (dom : Dom) (status : Nat) (body : String)
    (parse : String → Option ParsedJson) (r : JsonResult) (c : ℚ)
    (hmiss : missingField i = false) (hp : parse body = some (.obj r))
    (hok : respOk status = true) (hc : r.confidence = some c) :
    (submitHandler i dom (.response status body) parse).1.confidenceText =
      toString (jsRound (c * 100)) ++ "%" := by
  cases hrl : riskLevelVal r.prediction <;>
    simp [submitHandler, hmiss, tryBlock, hp, hok, okBranch, hrl,
      displayedConfidence, hc]

lemma jsRound_of_093 : jsRound ((93 : ℚ)/100 * 100) = 93 := by
  unfold jsRound
  rw [Int.floor_eq_iff]
  constructor <;> norm_num

/-- Witness for C6 at concrete inputs: confidence 0.93 displays as
"93%". -/
theorem claim_C6_witness :
    missingField wInputs = false ∧ wParse "resp" = some (.obj wResult) ∧
    respOk 200 = true ∧ wResult.confidence = some (93/100) ∧
    (submitHandler wInputs wDom (.response 200 "resp") wParse).1.confidenceText = "93%" :=
  ⟨by decide, rfl, by decide, rfl, by
    have h := claim_C6 wInputs wDom 200 "resp" wParse wResult (93/100)
      (by decide) rfl (by decide) rfl
    rw [h, jsRound_of_093]
    rfl⟩

/-- C7: for every success response predicting "mel" (an own key of the
mapping), the risk pill text is "High Risk - Cancerous" and its class
carries the styling category "high". -/
theorem claim_C7 (i : FormInputs) (dom : Dom) (status : Nat) (body : String)
    (parse : String → Option ParsedJson) (r : JsonResult)
    (hmiss : missingField i = false) (hp : parse body = some (.obj r))
    (hok : respOk status = true) (hpred : r.prediction = some "mel") :
    (submitHandler i dom (.response status body) parse).1.riskPillText =
      "High Risk - Cancerous" ∧
    (submitHandler i dom (.response status body) parse).1.riskPillClass =
      "pill high" := by
  have hrl : riskLevelVal (some "mel") = .str "High Risk - Cancerous" := by decide
  constructor <;>
    simp [submitHandler, hmiss, tryBlock, hp, hok, okBranch, hpred, hrl,
      pillClass_high]

/-- Witness for C7 at concrete inputs: a 200 response predicting "mel". -/
theorem claim_C7_witness :
    missingField wInputs = false ∧ wMelParse "resp" = some (.obj wMelResult) ∧
    respOk 200 = true ∧ wMelResult.prediction = some "mel" ∧
    ((submitHandler wInputs wDom (.response 200 "resp") wMelParse).1.riskPillText =
      "High Risk - Cancerous" ∧
     (submitHandler wInputs wDom (.response 200 "resp") wMelParse).1.riskPillClass =
      "pill high") :=
  ⟨by decide, rfl, by decide, rfl,
   claim_C7 wInputs wDom 200 "resp" wMelParse wMelResult (by decide) rfl (by decide) rfl⟩

/-- C8 (amended): on every success response whose body parses to an
object and whose prediction is not an `Object.prototype`-inherited name,
the results heading is the risk label, a ": " separator, and the full
diagnosis label `dx_full`, falling back to the raw prediction code when
no truthy `dx_full` is supplied; for a prototype-inherited prediction
the run throws before the heading write, leaving the heading unchanged. -/
theorem claim_C8 (i : FormInputs) (dom : Dom) (status : Nat) (body : String)
    (parse : String → Option ParsedJson) (r : JsonResult) (p : String)
    (hmiss : missingField i = false) (hp : parse body = some (.obj r))
    (hok : respOk status = true) (hpred : r.prediction = some p) :
    (p ∉ protoProps → r.dx_full = none →
      (submitHandler i dom (.response status body) parse).1.resultHeading =
        riskLevelOf (some p) ++ ": " ++ p) ∧
    (p ∉ protoProps → ∀ d, r.dx_full = some d → d ≠ "" →
      (submitHandler i dom (.response status body) parse).1.resultHeading =
        riskLevelOf (some p) ++ ": " ++ d) ∧
    (p ∈ protoProps →
      (submitHandler i dom (.response status body) parse).1.resultHeading =
        dom.resultHeading) := by
  refine ⟨?_, ?_, ?_⟩
  · intro hnp hd
    simp [submitHandler, hmiss, tryBlock, hp, hok, okBranch, hpred,
      riskLevelVal_eq_str p hnp, hd, jsOr, optTruthy, jsToStr]
  · intro hnp d hd hde
    simp [submitHandler, hmiss, tryBlock, hp, hok, okBranch, hpred,
      riskLevelVal_eq_str p hnp, hd, jsOr, optTruthy, jsToStr, bne_iff_ne, hde]
  · intro hpp
    simp [submitHandler, hmiss, tryBlock, hp, hok, okBranch, hpred,
      riskLevelVal_proto p hpp]

/-- Counterexample to C8 as frozen: at the prediction "toString" (a 200
response) the heading is never written — it keeps its initial value
instead of risk label plus code. -/
theorem claim_C8_counterexample :
    (submitHandler wInputs wDom (.response 200 "resp") wProtoParse).1.resultHeading =
      wDom.resultHeading ∧
    (submitHandler wInputs wDom (.response 200 "resp") wProtoParse).1.resultHeading ≠
      riskLabelClaim "toString" ++ ": " ++ "toString" :=
  ⟨by decide, by decide⟩

/-- Witness for C8 at concrete inputs: a 200 response predicting "nv"
with no dx_full falls back to the raw code in the heading. -/
theorem claim_C8_witness :
    missingField wInputs = false ∧ wParse "resp" = some (.obj wResult) ∧
    respOk 200 = true ∧ wResult.prediction = some "nv" ∧ wResult.dx_full = none ∧
    "nv" ∉ protoProps ∧
    (submitHandler wInputs wDom (.response 200 "resp") wParse).1.resultHeading =
      "Low Risk - Benign: nv" :=
  ⟨by decide, rfl, by decide, rfl, rfl, by decide, by
    have h := (claim_C8 wInputs wDom 200 "resp" wParse wResult "nv"
      (by decide) rfl (by decide) rfl).1 (by decide) rfl
    rw [h]
    decide⟩

/-- C9: when validation fails, the submit control is left completely
untouched: no button write appears in the trace (so it is never disabled
and never shows the busy label) and the DOM is returned unchanged. -/
theorem claim_C9 (i : FormInputs) (dom : Dom) (server : ServerBehavior)
    (parse : String → Option ParsedJson) (hmiss : missingField i = true) :
    (∀ d l, Event.btnSet d l ∉ (submitHandler i dom server parse).2) ∧
    (submitHandler i dom server parse).1 = dom := by
  constructor
  · intro d l
    simp [submitHandler, hmiss]
  · simp [submitHandler, hmiss]

/-- Witness for C9 at concrete inputs: empty age field. -/
theorem claim_C9_witness :
    missingField wBadInputs = true ∧
    ((∀ d l, Event.btnSet d l ∉
        (submitHandler wBadInputs wDom (.failure "down") wParse).2) ∧
     (submitHandler wBadInputs wDom (.failure "down") wParse).1 = wDom) :=
  ⟨by decide, claim_C9 wBadInputs wDom (.failure "down") wParse (by decide)⟩

/-- C10 (amended): after every success response whose body parses to an
object and whose prediction is not an `Object.prototype`-inherited name,
the risk pill class is exactly one of "pill high", "pill medium", or
"pill " (base class only), and an unrecognized such code gets "pill ",
the same empty styling category the Low-risk code "nv" gets; a
prototype-inherited prediction throws before the className write, leaving
the prior class in place. -/
theorem claim_C10 (i : FormInputs) (dom : Dom) (status : Nat) (body : String)
    (parse : String → Option ParsedJson) (r : JsonResult)
    (hmiss : missingField i = false) (hp : parse body = some (.obj r))
    (hok : respOk status = true) :
    ((∀ q, r.prediction = some q → q ∉ protoProps) →
      ((submitHandler i dom (.response status body) parse).1.riskPillClass = "pill high" ∨
       (submitHandler i dom (.response status body) parse).1.riskPillClass = "pill medium" ∨
       (submitHandler i dom (.response status body) parse).1.riskPillClass = "pill ")) ∧
    (∀ q, r.prediction = some q → riskMapping q = none → q ∉ protoProps →
      (submitHandler i dom (.response status body) parse).1.riskPillClass = "pill ") ∧
    (∀ q, r.prediction = some q → q ∈ protoProps →
      (submitHandler i dom (.response status body) parse).1.riskPillClass =
        dom.riskPillClass) ∧
    pillClassOf (riskLevelOf (some "nv")) = "pill " := by
  have hcls : ∀ s, riskLevelVal r.prediction = .str s →
      (submitHandler i dom (.response status body) parse).1.riskPillClass =
        pillClassOf s := by
    intro s hs
    simp [submitHandler, hmiss, tryBlock, hp, hok, okBranch, hs]
  refine ⟨?_, ?_, ?_, ?_⟩
  · intro hall
    rw [hcls (riskLevelOf r.prediction) (riskLevelVal_str r.prediction hall)]
    rcases riskLevelOf_cases r.prediction with h | h | h | h <;> rw [h] <;>
      simp [pillClass_high, pillClass_medium, pillClass_low, pillClass_unknown]
  · intro q hq hnone hnp
    have hs : riskLevelVal r.prediction = .str "Unknown Risk" := by
      rw [hq]
      simp [riskLevelVal, riskMappingGet, jsToStr, hnone, hnp]
    rw [hcls _ hs, pillClass_unknown]
  · intro q hq hpp
    simp [submitHandler, hmiss, tryBlock, hp, hok, okBranch, hq,
      riskLevelVal_proto q hpp]
  · decide

/-- Counterexample to C10 as frozen: at the prediction "toString" (a 200
response, an unmapped code in the 7-entry table) the className write is
never reached, so the class keeps its prior value, which is none of the
three claimed values and in particular not "pill ". -/
theorem claim_C10_counterexample :
    (submitHandler wInputs wDom (.response 200 "resp") wProtoParse).1.riskPillClass =
      wDom.riskPillClass ∧
    ¬((submitHandler wInputs wDom (.response 200 "resp") wProtoParse).1.riskPillClass =
        "pill high" ∨
      (submitHandler wInputs wDom (.response 200 "resp") wProtoParse).1.riskPillClass =
        "pill medium" ∨
      (submitHandler wInputs wDom (.response 200 "resp") wProtoParse).1.riskPillClass =
        "pill ") ∧
    riskMapping "toString" = none :=
  ⟨by decide, by decide, by decide⟩

/-- Witness for C10 at concrete inputs: a 200 response with the
unrecognized, non-prototype code "xyz" gets the base-only class
"pill ". -/
theorem claim_C10_witness :
    missingField wInputs = false ∧ wUnkParse "resp" = some (.obj wUnkResult) ∧
    respOk 200 = true ∧ wUnkResult.prediction = some "xyz" ∧
    riskMapping "xyz" = none ∧ "xyz" ∉ protoProps ∧
    (submitHandler wInputs wDom (.response 200 "resp") wUnkParse).1.riskPillClass =
      "pill " :=
  ⟨by decide, rfl, by decide, rfl, by decide, by decide,
   (claim_C10 wInputs wDom 200 "resp" wUnkParse wUnkResult
      (by decide) rfl (by decide)).2.1 "xyz" rfl (by decide) (by decide)⟩
